import Mathlib

/-!
Shallow embedding of the TiLDA MkV UART/USB bridge firmware
(src/main.rs, src/webusb/class.rs, src/webusb/builder.rs).

Conventions of the embedding:
* Machine integers (u8/u16/u32) are `Nat`; wrap-around is written with
  explicit `% 256` etc. where the source truncates.
* The `DescriptorBuilder` wraps a fixed 180-byte backing array in the
  source and only ever appends at the running cursor, so its written
  prefix (`buf()`) is modelled as a growing `List Nat`; the cursor
  `position` is that list's length.
* Control transfers: `ControlIn`/`ControlOut` outcomes are embedded as
  small inductive result types (`ignored` when the handler returns
  without touching the transfer, `accepted`/`rejected` otherwise); the
  mutable class state is passed explicitly.
-/

namespace TildaMkv

/-! ## Constants from src/webusb/class.rs -/

def WEBUSB_VENDOR_CODE : Nat := 0x42
def WEBUSB_GET_URL : Nat := 0x02
def WEBUSB_DESCRIPTOR_URL : Nat := 0x03
def WEBUSB_SCHEME_HTTPS : Nat := 0x01

def MS_VENDOR_CODE : Nat := 0x43
def MS_GET_DESCRIPTOR_SET : Nat := 0x07

/-- `MS_DEVICE_UUID`: the registry-property payload string, a GUID in
braces followed by two NUL terminators (REG_MULTI_SZ). -/
def MS_DEVICE_UUID : String := "\x7bf37ccce8-a70f-492a-acfb-cf2b2dab56a3\x7d\u0000\u0000"

def REQ_SEND_ENCAPSULATED_COMMAND : Nat := 0x00
def REQ_SET_LINE_CODING : Nat := 0x20
def REQ_GET_LINE_CODING : Nat := 0x21
def REQ_SET_CONTROL_LINE_STATE : Nat := 0x22

/-- Baud rate of the physical UART, from `main.rs` (`115_200.bps()`). -/
def UART_BAUD : Nat := 115200

/-! ## DescriptorBuilder (src/webusb/builder.rs)

The source writes into a caller-supplied `&mut [u8]` at `self.position`
and always advances the cursor by the number of bytes written, so the
written prefix returned by `buf()` evolves by pure appends; we model the
builder as that prefix. -/

structure DescriptorBuilder where
  buf : List Nat
deriving DecidableEq

def DescriptorBuilder.new : DescriptorBuilder := ⟨[]⟩

def DescriptorBuilder.position (b : DescriptorBuilder) : Nat := b.buf.length

def DescriptorBuilder.write (b : DescriptorBuilder) (bytes : List Nat) : DescriptorBuilder :=
  ⟨b.buf ++ bytes⟩

/-- Little-endian u16 write: `(val & 0xFF)`, `(val >> 8) as u8`. -/
def DescriptorBuilder.write_u16 (b : DescriptorBuilder) (val : Nat) : DescriptorBuilder :=
  ⟨b.buf ++ [val % 256, (val / 256) % 256]⟩

/-- Little-endian u32 write. -/
def DescriptorBuilder.write_u32 (b : DescriptorBuilder) (val : Nat) : DescriptorBuilder :=
  ⟨b.buf ++ [val % 256, (val / 256) % 256, (val / 65536) % 256, (val / 16777216) % 256]⟩

/-- UTF-16 code units of a character, as Rust's `str::encode_utf16`
produces them (surrogate pair above U+FFFF). -/
def charUtf16 (c : Char) : List Nat :=
  let n := c.toNat
  if n < 0x10000 then [n]
  else [0xD800 + (n - 0x10000) / 0x400, 0xDC00 + (n - 0x10000) % 0x400]

def utf16Units (s : String) : List Nat := s.data.flatMap charUtf16

def DescriptorBuilder.write_utf16 (b : DescriptorBuilder) (val : String) : DescriptorBuilder :=
  (utf16Units val).foldl (fun b cp => b.write_u16 cp) b

/-! ## LineCoding and its enums (src/webusb/class.rs) -/

inductive StopBits where
  | One
  | OnePointFive
  | Two
deriving DecidableEq

/-- The discriminant of a `StopBits` value (Rust `as u8`). -/
def StopBits.toNat : StopBits → Nat
  | .One => 0
  | .OnePointFive => 1
  | .Two => 2

/-- `impl From<u8> for StopBits`: for `value <= 2` the source transmutes
the byte into the variant with that discriminant, otherwise `One`. -/
def StopBits.fromU8 (value : Nat) : StopBits :=
  if value ≤ 2 then
    match value with
    | 0 => .One
    | 1 => .OnePointFive
    | _ => .Two
  else .One

inductive ParityType where
  | None
  | Odd
  | Event
  | Mark
  | Space
deriving DecidableEq

def ParityType.toNat : ParityType → Nat
  | .None => 0
  | .Odd => 1
  | .Event => 2
  | .Mark => 3
  | .Space => 4

/-- `impl From<u8> for ParityType`: transmute for `value <= 4`, else `None`. -/
def ParityType.fromU8 (value : Nat) : ParityType :=
  if value ≤ 4 then
    match value with
    | 0 => .None
    | 1 => .Odd
    | 2 => .Event
    | 3 => .Mark
    | _ => .Space
  else .None

structure LineCoding where
  stop_bits : StopBits
  data_bits : Nat
  parity_type : ParityType
  data_rate : Nat
deriving DecidableEq

/-- `impl Default for LineCoding`. -/
def LineCoding.default : LineCoding :=
  { stop_bits := .One, data_bits := 8, parity_type := .None, data_rate := 8000 }

/-! ## WebUsbClass state (src/webusb/class.rs)

The endpoint handles carry no state relevant to the claims; the class
state is the interface numbers fixed at construction plus the mutable
`line_coding`/`dtr`/`rts` fields. -/

structure WebUsbClass where
  comm_if : Nat
  data_if : Nat
  line_coding : LineCoding
  dtr : Bool
  rts : Bool
deriving DecidableEq

/-- `WebUsbClass::new`: interface numbers come from the allocator; the
line coding starts at 8000 bit/s, 8N1, with dtr/rts deasserted. -/
def WebUsbClass.new (comm_if data_if : Nat) : WebUsbClass :=
  { comm_if := comm_if
    data_if := data_if
    line_coding :=
      { stop_bits := .One, data_bits := 8, parity_type := .None, data_rate := 8000 }
    dtr := false
    rts := false }

/-- `UsbClass::reset` for WebUsbClass. -/
def WebUsbClass.reset (s : WebUsbClass) : WebUsbClass :=
  { s with line_coding := LineCoding.default, dtr := false, rts := false }

/-! ## Control requests (usb_device::control) -/

inductive RequestType where
  | Standard
  | Class
  | Vendor
  | Reserved
deriving DecidableEq

inductive Recipient where
  | Device
  | Interface
  | Endpoint
  | Other
deriving DecidableEq

structure Request where
  request_type : RequestType
  recipient : Recipient
  request : Nat
  value : Nat
  index : Nat
  length : Nat
deriving DecidableEq

/-- Outcome of a `ControlIn` transfer as seen by the host: the handler
either returns without touching it (`ignored`, leaving it for another
class), accepts it with response data, or rejects (stalls) it. -/
inductive InResponse where
  | ignored
  | accepted (data : List Nat)
  | rejected
deriving DecidableEq

inductive OutResponse where
  | ignored
  | accepted
  | rejected
deriving DecidableEq

/-- Little-endian bytes of a u32 (`u32::to_le_bytes`). -/
def u32le (n : Nat) : List Nat :=
  [n % 256, (n / 256) % 256, (n / 65536) % 256, (n / 16777216) % 256]

/-- `u32::from_le_bytes` over the first four data bytes. -/
def u32FromLe (data : List Nat) : Nat :=
  data.getD 0 0 + 256 * data.getD 1 0 + 65536 * data.getD 2 0 + 16777216 * data.getD 3 0

/-- The URL descriptor bytes produced by the `WEBUSB_GET_URL` arm of
`control_in`: the closure fills `[length, 0x03, 0x01]` followed by the
17-byte literal `b"tide.emfcamp.org\u0000"` and returns
`Ok(length)` with `length = url.len() + 2 = 19`, so only the first 19
filled bytes are transmitted (the written trailing NUL falls outside). -/
def urlDescriptorBytes : List Nat :=
  let url : List Nat := "tide.emfcamp.org".data.map Char.toNat ++ [0]
  let length := url.length + 2
  (([length, WEBUSB_DESCRIPTOR_URL, WEBUSB_SCHEME_HTTPS] ++ url).take length)

/-- The Microsoft OS 2.0 descriptor set, built through DescriptorBuilder
exactly as the `MS_GET_DESCRIPTOR_SET` arm of `control_in` does. -/
def msOsDescriptorSet : List Nat :=
  let db := DescriptorBuilder.new
  -- Microsoft OS 2.0 descriptor set header
  let db := db.write_u16 0x000A -- wLength
  let db := db.write_u16 0x0000 -- wDescriptorType
  let db := db.write_u32 0x06030000 -- dwWindowsVersion
  let db := db.write_u16 0x00B2 -- wTotalLength
  -- Microsoft OS 2.0 configuration subset header
  let db := db.write_u16 0x0008
  let db := db.write_u16 0x0001
  let db := db.write [0x00, 0x00]
  let db := db.write_u16 0x00A8
  -- Microsoft OS 2.0 function subset header
  let db := db.write_u16 0x0008
  let db := db.write_u16 0x0002
  let db := db.write [0x02, 0x00]
  let db := db.write_u16 0x00A0
  -- Microsoft OS 2.0 compatible ID descriptor
  let db := db.write_u16 0x0014
  let db := db.write_u16 0x0003
  let db := db.write ("WINUSB".data.map Char.toNat ++ [0, 0])
  let db := db.write [0, 0, 0, 0, 0, 0, 0, 0]
  -- Microsoft OS 2.0 registry property descriptor
  let db := db.write_u16 0x0084
  let db := db.write_u16 0x0004
  let db := db.write_u16 0x0007
  let db := db.write_u16 0x002A
  let db := db.write_utf16 "DeviceInterfaceGUIDs\u0000"
  let db := db.write_u16 0x0050
  let db := db.write_utf16 MS_DEVICE_UUID
  db.buf

/-- The payload of the Microsoft OS 2.0 platform capability written by
`get_bos_descriptors` (bytes after the capability type `0x05`). -/
def msPlatformCapability : List Nat :=
  [0x00, -- bReserved
   0xDF, 0x60, 0xDD, 0xD8, 0x89, 0x45, 0xC7, 0x4C, -- UUID
   0x9C, 0xD2, 0x65, 0x9D, 0x9E, 0x64, 0x8A, 0x9F,
   0x00, 0x00, 0x03, 0x06, -- dwWindowsVersion
   0xB2, 0x00, -- wMSOSDescriptorSetTotalLength
   MS_VENDOR_CODE, -- bMS_VendorCode
   0x00] -- bAltEnumCode

/-- Little-endian u16 read at offset `i` of a byte list. -/
def decodeU16At (l : List Nat) (i : Nat) : Nat :=
  l.getD i 0 + 256 * l.getD (i + 1) 0

/-- `WebUsbClass::control_in`. The guard mirrors the source: ignore the
transfer unless it is class-typed, interface-directed at `comm_if`, or
uses one of the two vendor request codes; then match on the request
code, rejecting anything unmatched. `control_in` never mutates the
class state (the source takes `&mut self` but only reads it). -/
def WebUsbClass.control_in (s : WebUsbClass) (req : Request) : InResponse :=
  if ¬(req.request_type = .Class ∧ req.recipient = .Interface ∧ req.index = s.comm_if)
      ∧ req.request ≠ WEBUSB_VENDOR_CODE ∧ req.request ≠ MS_VENDOR_CODE then
    .ignored
  else if req.request = REQ_GET_LINE_CODING ∧ req.length = 7 then
    .accepted (u32le s.line_coding.data_rate ++
      [s.line_coding.stop_bits.toNat, s.line_coding.parity_type.toNat, s.line_coding.data_bits])
  else if req.request = WEBUSB_VENDOR_CODE ∧ req.index = WEBUSB_GET_URL then
    .accepted urlDescriptorBytes
  else if req.request = MS_VENDOR_CODE ∧ req.index = MS_GET_DESCRIPTOR_SET then
    .accepted msOsDescriptorSet
  else
    .rejected

/-- `WebUsbClass::control_out`. Requests not class-typed,
interface-directed at `comm_if` are ignored (no vendor-code exception
here, unlike `control_in`); data indexing in the SET_LINE_CODING arm is
guarded by `data.len() >= 7`. -/
def WebUsbClass.control_out (s : WebUsbClass) (req : Request) (data : List Nat) :
    OutResponse × WebUsbClass :=
  if ¬(req.request_type = .Class ∧ req.recipient = .Interface ∧ req.index = s.comm_if) then
    (.ignored, s)
  else if req.request = REQ_SEND_ENCAPSULATED_COMMAND then
    (.accepted, s)
  else if req.request = REQ_SET_LINE_CODING ∧ data.length ≥ 7 then
    (.accepted,
      { s with line_coding :=
        { data_rate := u32FromLe (data.take 4)
          stop_bits := StopBits.fromU8 (data.getD 4 0)
          parity_type := ParityType.fromU8 (data.getD 5 0)
          data_bits := data.getD 6 0 } })
  else if req.request = REQ_SET_CONTROL_LINE_STATE then
    (.accepted, { s with dtr := (req.value &&& 0x0001) != 0, rts := (req.value &&& 0x0002) != 0 })
  else
    (.rejected, s)

/-! ## Bridge loop pieces (src/main.rs) -/

/-- `set_pins`: drives `(esp_en, esp_gpio0)` from the serial-sense (not
USB-sense) dtr/rts arguments. Mirrors the if/else structure of the
source. -/
def set_pins (dtr rts : Bool) : Bool × Bool :=
  if !rts && !dtr then
    (true, true)
  else
    ((if rts then true else false), (if dtr then true else false))

/-- The bridge-loop call `set_pins(!(usb_serial.dtr() || webusb.dtr()),
!(usb_serial.rts() || webusb.rts()), ..)`: USB-sense control lines from
the two classes are ORed and inverted before `set_pins`. -/
def bridge_set_pins (serialDtr serialRts webDtr webRts : Bool) : Bool × Bool :=
  set_pins (!(serialDtr || webDtr)) (!(serialRts || webRts))

/-- The configured-state drain loop of `main`: `while let Ok(byte) =
uart.read()` feeds each received byte to `usb_serial.write(&[byte])` and
`webusb.write(&[byte])`, both results discarded (`let _ =`). The two
write methods are abstracted as state transformers returning the next
state and a success flag; the flag is dropped exactly as in the source. -/
def drainUartToUsb {σA σB : Type} (writeSerial : σA → Nat → σA × Bool)
    (writeWeb : σB → Nat → σB × Bool) :
    List Nat → σA → σB → σA × σB
  | [], sA, sB => (sA, sB)
  | byte :: rest, sA, sB =>
    drainUartToUsb writeSerial writeWeb rest (writeSerial sA byte).1 (writeWeb sB byte).1

/-! ## Claim-specific definitions -/

/-- The boot-mode table of the specification, read — as the claim states
it — over the asserted (active-high USB) sense of the combined dtr/rts:
rows `(dtr, rts) -> (EN, IO0)`. -/
def bootModeTableClaim : Bool → Bool → Bool × Bool
  | true, true => (true, true)
  | false, false => (true, true)
  | true, false => (false, true)
  | false, true => (true, false)

/-- The table the bridge loop actually implements over the asserted
combined dtr/rts: `main` inverts dtr/rts before calling `set_pins`, and
`set_pins` applies the esptool table to those inverted line-level
values, so the two single-assertion rows swap EN and IO0 relative to
`bootModeTableClaim`. -/
def bootModeTableCode : Bool → Bool → Bool × Bool
  | true, true => (true, true)
  | false, false => (true, true)
  | true, false => (true, false)
  | false, true => (false, true)

/-- The acceptance condition the routing claim asserts for both transfer
directions: class-type, interface-recipient at the comm interface, or
one of the two registered vendor request codes. -/
def routingClaimHandles (s : WebUsbClass) (req : Request) : Prop :=
  (req.request_type = .Class ∧ req.recipient = .Interface ∧ req.index = s.comm_if)
  ∨ req.request = WEBUSB_VENDOR_CODE ∨ req.request = MS_VENDOR_CODE

instance (s : WebUsbClass) (req : Request) : Decidable (routingClaimHandles s req) := by
  unfold routingClaimHandles; infer_instance

/-- A SET_LINE_CODING request as the host sends it to the comm
interface: class type, interface recipient, wLength 7. -/
def setLineCodingReq (idx : Nat) : Request :=
  ⟨.Class, .Interface, REQ_SET_LINE_CODING, 0, idx, 7⟩

/-- A GET_LINE_CODING request to the comm interface with wLength 7. -/
def getLineCodingReq (idx : Nat) : Request :=
  ⟨.Class, .Interface, REQ_GET_LINE_CODING, 0, idx, 7⟩

/-! ## Helper lemmas -/

theorem u32_le_roundtrip (b0 b1 b2 b3 : Nat) (h0 : b0 < 256) (h1 : b1 < 256)
    (h2 : b2 < 256) (h3 : b3 < 256) :
    u32le (u32FromLe [b0, b1, b2, b3]) = [b0, b1, b2, b3] := by
  simp only [u32le, u32FromLe, List.getD, List.get?, Option.getD_some, List.cons.injEq,
    and_true]
  refine ⟨?_, ?_, ?_, ?_⟩ <;> omega

theorem stopBits_discriminant_roundtrip (b : Nat) (h : b ≤ 2) :
    (StopBits.fromU8 b).toNat = b := by
  interval_cases b <;> rfl

theorem parityType_discriminant_roundtrip (b : Nat) (h : b ≤ 4) :
    (ParityType.fromU8 b).toNat = b := by
  interval_cases b <;> rfl

/-! ## Claims -/

/-- C1 (counterexample): at combined asserted dtr = 1, rts = 0 — CDC dtr
asserted, all other control lines deasserted — the bridge-loop call
drives `(EN, IO0) = (1, 0)`, not the `(0, 1)` the claim's table row
demands. -/
theorem c1_boot_mode_counterexample :
    bridge_set_pins true false false false = (true, false) ∧
    bootModeTableClaim (true || false) (false || false) = (false, true) ∧
    bridge_set_pins true false false false ≠ bootModeTableClaim (true || false) (false || false) := by
  decide

/-- C1 (amended): for every combination of the two classes' control
lines, the bridge-loop iteration drives the GPIO outputs per the table
over combined asserted dtr/rts with the single-assertion rows
`(dtr=1,rts=0) -> (EN=1,IO0=0)` and `(dtr=0,rts=1) -> (EN=0,IO0=1)`
(the claim's table with those two rows' outputs exchanged); the
dual-assertion and no-assertion rows hold as claimed. -/
theorem c1_boot_mode_amended (serialDtr serialRts webDtr webRts : Bool) :
    bridge_set_pins serialDtr serialRts webDtr webRts =
      bootModeTableCode (serialDtr || webDtr) (serialRts || webRts) := by
  cases serialDtr <;> cases serialRts <;> cases webDtr <;> cases webRts <;> rfl

set_option maxRecDepth 10000 in
/-- C2: the MS OS 2.0 descriptor set built for the vendor request is
exactly 178 bytes; its header's wTotalLength (offset 8) and the
wMSOSDescriptorSetTotalLength constant of the BOS platform capability
(offset 21) both decode to that length; and each per-subset length
field — configuration subset (offset 16), function subset (offset 24),
registry property descriptor (offset 46), property name (offset 52) and
property data (offset 96) — equals the actual number of bytes emitted
for its subset, descriptor or field. -/
theorem c2_ms_os_descriptor_lengths :
    msOsDescriptorSet.length = 178 ∧
    decodeU16At msOsDescriptorSet 8 = msOsDescriptorSet.length ∧
    decodeU16At msPlatformCapability 21 = msOsDescriptorSet.length ∧
    decodeU16At msOsDescriptorSet 16 = (msOsDescriptorSet.drop 10).length ∧
    decodeU16At msOsDescriptorSet 24 = (msOsDescriptorSet.drop 18).length ∧
    decodeU16At msOsDescriptorSet 46 = (msOsDescriptorSet.drop 46).length ∧
    decodeU16At msOsDescriptorSet 52 = (utf16Units "DeviceInterfaceGUIDs\u0000").length * 2 ∧
    decodeU16At msOsDescriptorSet 96 = (utf16Units MS_DEVICE_UUID).length * 2 := by
  decide

/-- C3: for every byte value, `StopBits::from` yields the variant with
discriminant `v` when `v ≤ 2` and `One` otherwise, and
`ParityType::from` yields the variant with discriminant `v` when
`v ≤ 4` and `None` otherwise. -/
theorem c3_enum_decode_defaults (v : Nat) (hv : v < 256) :
    ((v ≤ 2 → (StopBits.fromU8 v).toNat = v) ∧ (2 < v → StopBits.fromU8 v = .One)) ∧
    ((v ≤ 4 → (ParityType.fromU8 v).toNat = v) ∧ (4 < v → ParityType.fromU8 v = .None)) := by
  refine ⟨⟨?_, ?_⟩, ?_, ?_⟩
  · intro h; exact stopBits_discriminant_roundtrip v h
  · intro h; unfold StopBits.fromU8; rw [if_neg (by omega)]
  · intro h; exact parityType_discriminant_roundtrip v h
  · intro h; unfold ParityType.fromU8; rw [if_neg (by omega)]

theorem c3_enum_decode_defaults_witness :
    (200 : Nat) < 256 ∧
    (((200 ≤ 2 → (StopBits.fromU8 200).toNat = 200) ∧ (2 < 200 → StopBits.fromU8 200 = .One)) ∧
     ((200 ≤ 4 → (ParityType.fromU8 200).toNat = 200) ∧
      (4 < 200 → ParityType.fromU8 200 = .None))) :=
  ⟨by decide, c3_enum_decode_defaults 200 (by decide)⟩

/-- C4: for every 7-byte payload with byte 4 in 0..=2 and byte 5 in
0..=4, an accepted SET_LINE_CODING carrying it followed by a
GET_LINE_CODING of length 7 on the resulting state returns exactly the
same 7 bytes. -/
theorem c4_line_coding_roundtrip (s : WebUsbClass) (b0 b1 b2 b3 b4 b5 b6 : Nat)
    (h0 : b0 < 256) (h1 : b1 < 256) (h2 : b2 < 256) (h3 : b3 < 256)
    (h4 : b4 ≤ 2) (h5 : b5 ≤ 4) :
    (s.control_out (setLineCodingReq s.comm_if) [b0, b1, b2, b3, b4, b5, b6]).1 =
      .accepted ∧
    ((s.control_out (setLineCodingReq s.comm_if) [b0, b1, b2, b3, b4, b5, b6]).2.control_in
        (getLineCodingReq s.comm_if)) = .accepted [b0, b1, b2, b3, b4, b5, b6] := by
  have hstate : s.control_out (setLineCodingReq s.comm_if) [b0, b1, b2, b3, b4, b5, b6] =
      (.accepted,
        { s with line_coding :=
          { data_rate := u32FromLe [b0, b1, b2, b3]
            stop_bits := StopBits.fromU8 b4
            parity_type := ParityType.fromU8 b5
            data_bits := b6 } }) := by
    simp [WebUsbClass.control_out, setLineCodingReq, REQ_SET_LINE_CODING,
      REQ_SEND_ENCAPSULATED_COMMAND, List.getD]
  refine ⟨by rw [hstate], ?_⟩
  rw [hstate]
  simp only [WebUsbClass.control_in, getLineCodingReq, REQ_GET_LINE_CODING,
    WEBUSB_VENDOR_CODE, MS_VENDOR_CODE]
  norm_num
  rw [u32_le_roundtrip b0 b1 b2 b3 h0 h1 h2 h3]
  rw [show (StopBits.fromU8 b4).toNat = b4 from stopBits_discriminant_roundtrip b4 h4]
  rw [show (ParityType.fromU8 b5).toNat = b5 from parityType_discriminant_roundtrip b5 h5]
  rfl

theorem c4_line_coding_roundtrip_witness :
    ((WebUsbClass.new 2 3).control_out (setLineCodingReq 2) [0, 194, 1, 0, 0, 0, 8]).1 =
      .accepted ∧
    (((WebUsbClass.new 2 3).control_out (setLineCodingReq 2) [0, 194, 1, 0, 0, 0, 8]).2.control_in
        (getLineCodingReq 2)) = .accepted [0, 194, 1, 0, 0, 0, 8] :=
  c4_line_coding_roundtrip (WebUsbClass.new 2 3) 0 194 1 0 0 0 8
    (by decide) (by decide) (by decide) (by decide) (by decide) (by decide)

/-- C5 (counterexample): an OUT transfer using the registered WebUSB
vendor request code 0x42 but not class-typed at the comm interface is
ignored by `control_out`, although the claim's condition says the class
handles it: the vendor-code exception exists only in `control_in`. -/
theorem c5_routing_counterexample :
    routingClaimHandles (WebUsbClass.new 2 3) ⟨.Vendor, .Device, 0x42, 0, 0, 0⟩ ∧
    ((WebUsbClass.new 2 3).control_out ⟨.Vendor, .Device, 0x42, 0, 0, 0⟩ []).1 =
      .ignored := by
  decide

/-- C5 (amended): an IN transfer is handled (accepted or rejected) iff
it is class-typed, interface-directed at the comm interface or uses one
of the two vendor request codes; an OUT transfer is handled iff it is
class-typed, interface-directed at the comm interface (the vendor-code
exception applies only to IN transfers); an ignored OUT transfer leaves
the class state unchanged (IN transfers never change state). -/
theorem c5_routing_amended (s : WebUsbClass) (req : Request) (data : List Nat) :
    (s.control_in req ≠ .ignored ↔ routingClaimHandles s req) ∧
    ((s.control_out req data).1 ≠ .ignored ↔
      (req.request_type = .Class ∧ req.recipient = .Interface ∧ req.index = s.comm_if)) ∧
    ((s.control_out req data).1 = .ignored → (s.control_out req data).2 = s) := by
  unfold WebUsbClass.control_in WebUsbClass.control_out routingClaimHandles
  refine ⟨?_, ?_, ?_⟩ <;> split_ifs with h₁ h₂ h₃ h₄ <;> simp_all <;> tauto

/-- C6 (counterexample): the URL descriptor's length byte is 19, while
"2 header bytes plus the transmitted URL bytes" is 2 + 16 = 18: the
length byte counts the whole descriptor, its own byte included. -/
theorem c6_url_counterexample :
    urlDescriptorBytes.getD 0 0 = 19 ∧
    (urlDescriptorBytes.drop 3).length = 16 ∧
    urlDescriptorBytes.getD 0 0 ≠ 2 + (urlDescriptorBytes.drop 3).length := by
  decide

/-- C6 (amended): the accepted WEBUSB GET_URL request returns the URL
descriptor `[length, 0x03, 0x01, url-bytes]`; the length byte counts
the length byte itself, the descriptor-type and scheme bytes, and the
URL bytes (3 + 16 = 19); no NUL byte is transmitted; and the length
byte equals the total number of bytes returned. -/
theorem c6_url_amended :
    (WebUsbClass.new 2 3).control_in ⟨.Vendor, .Device, WEBUSB_VENDOR_CODE, 0, WEBUSB_GET_URL, 255⟩
      = .accepted urlDescriptorBytes ∧
    urlDescriptorBytes =
      [19, WEBUSB_DESCRIPTOR_URL, WEBUSB_SCHEME_HTTPS] ++ "tide.emfcamp.org".data.map Char.toNat ∧
    urlDescriptorBytes.getD 0 0 = urlDescriptorBytes.length ∧
    urlDescriptorBytes.length = 1 + 2 + ("tide.emfcamp.org".data.map Char.toNat).length ∧
    (0 : Nat) ∉ urlDescriptorBytes := by
  decide

/-- C7: the configured-state drain loop delivers every UART byte, in
arrival order, to both USB write paths: each interface's final state is
the fold of its own write over the entire byte list, independent of the
success flags either write returns (so an error on one side neither
skips the other side's write nor stops the drain). -/
theorem c7_uart_fanout {σA σB : Type} (writeSerial : σA → Nat → σA × Bool)
    (writeWeb : σB → Nat → σB × Bool) (bytes : List Nat) (sA : σA) (sB : σB) :
    drainUartToUsb writeSerial writeWeb bytes sA sB =
      (bytes.foldl (fun st b => (writeSerial st b).1) sA,
       bytes.foldl (fun st b => (writeWeb st b).1) sB) := by
  induction bytes generalizing sA sB with
  | nil => rfl
  | cons b rest ih => simp [drainUartToUsb, List.foldl, ih]

/-- C8: after a bus reset, dtr and rts are false and the line coding is
the default (stop bits One, parity None, 8 data bits, 8000 bit/s),
whatever the prior state was. -/
theorem c8_reset_state (s : WebUsbClass) :
    s.reset.dtr = false ∧ s.reset.rts = false ∧
    s.reset.line_coding = LineCoding.default ∧
    LineCoding.default.stop_bits = .One ∧ LineCoding.default.parity_type = .None :=
  ⟨rfl, rfl, rfl, rfl, rfl⟩

/-- C9: frame conditions of the accepted OUT requests: an accepted
SET_CONTROL_LINE_STATE sets dtr/rts from bits 0/1 of the request value
and leaves the line coding unchanged; an accepted SET_LINE_CODING
leaves dtr and rts unchanged; an accepted SEND_ENCAPSULATED_COMMAND
changes no state at all. -/
theorem c9_control_out_frame (s : WebUsbClass) (req : Request) (data : List Nat)
    (hA : req.request_type = .Class ∧ req.recipient = .Interface ∧ req.index = s.comm_if) :
    (req.request = REQ_SET_CONTROL_LINE_STATE →
      (s.control_out req data).1 = .accepted ∧
      (s.control_out req data).2.line_coding = s.line_coding ∧
      (s.control_out req data).2.dtr = ((req.value &&& 0x0001) != 0) ∧
      (s.control_out req data).2.rts = ((req.value &&& 0x0002) != 0)) ∧
    (req.request = REQ_SET_LINE_CODING → data.length ≥ 7 →
      (s.control_out req data).1 = .accepted ∧
      (s.control_out req data).2.dtr = s.dtr ∧ (s.control_out req data).2.rts = s.rts) ∧
    (req.request = REQ_SEND_ENCAPSULATED_COMMAND →
      (s.control_out req data).1 = .accepted ∧ (s.control_out req data).2 = s) := by
  obtain ⟨ht, hr, hi⟩ := hA
  refine ⟨?_, ?_, ?_⟩
  · intro hreq
    simp [WebUsbClass.control_out, ht, hr, hi, hreq, REQ_SET_CONTROL_LINE_STATE,
      REQ_SEND_ENCAPSULATED_COMMAND, REQ_SET_LINE_CODING]
  · intro hreq hlen
    simp [WebUsbClass.control_out, ht, hr, hi, hreq, hlen, REQ_SET_CONTROL_LINE_STATE,
      REQ_SEND_ENCAPSULATED_COMMAND, REQ_SET_LINE_CODING]
  · intro hreq
    simp [WebUsbClass.control_out, ht, hr, hi, hreq, REQ_SEND_ENCAPSULATED_COMMAND]

theorem c9_control_out_frame_witness :
    (Request.request ⟨.Class, .Interface, REQ_SET_CONTROL_LINE_STATE, 3, 2, 0⟩ =
        REQ_SET_CONTROL_LINE_STATE →
      ((WebUsbClass.new 2 3).control_out ⟨.Class, .Interface, REQ_SET_CONTROL_LINE_STATE, 3, 2, 0⟩
          []).1 = .accepted ∧
      ((WebUsbClass.new 2 3).control_out ⟨.Class, .Interface, REQ_SET_CONTROL_LINE_STATE, 3, 2, 0⟩
          []).2.line_coding = (WebUsbClass.new 2 3).line_coding ∧
      ((WebUsbClass.new 2 3).control_out ⟨.Class, .Interface, REQ_SET_CONTROL_LINE_STATE, 3, 2, 0⟩
          []).2.dtr = ((3 &&& 0x0001) != 0) ∧
      ((WebUsbClass.new 2 3).control_out ⟨.Class, .Interface, REQ_SET_CONTROL_LINE_STATE, 3, 2, 0⟩
          []).2.rts = ((3 &&& 0x0002) != 0)) ∧
    (Request.request ⟨.Class, .Interface, REQ_SET_CONTROL_LINE_STATE, 3, 2, 0⟩ =
        REQ_SET_LINE_CODING →
      ([] : List Nat).length ≥ 7 →
      ((WebUsbClass.new 2 3).control_out ⟨.Class, .Interface, REQ_SET_CONTROL_LINE_STATE, 3, 2, 0⟩
          []).1 = .accepted ∧
      ((WebUsbClass.new 2 3).control_out ⟨.Class, .Interface, REQ_SET_CONTROL_LINE_STATE, 3, 2, 0⟩
          []).2.dtr = (WebUsbClass.new 2 3).dtr ∧
      ((WebUsbClass.new 2 3).control_out ⟨.Class, .Interface, REQ_SET_CONTROL_LINE_STATE, 3, 2, 0⟩
          []).2.rts = (WebUsbClass.new 2 3).rts) ∧
    (Request.request ⟨.Class, .Interface, REQ_SET_CONTROL_LINE_STATE, 3, 2, 0⟩ =
        REQ_SEND_ENCAPSULATED_COMMAND →
      ((WebUsbClass.new 2 3).control_out ⟨.Class, .Interface, REQ_SET_CONTROL_LINE_STATE, 3, 2, 0⟩
          []).1 = .accepted ∧
      ((WebUsbClass.new 2 3).control_out ⟨.Class, .Interface, REQ_SET_CONTROL_LINE_STATE, 3, 2, 0⟩
          []).2 = WebUsbClass.new 2 3) :=
  c9_control_out_frame (WebUsbClass.new 2 3)
    ⟨.Class, .Interface, REQ_SET_CONTROL_LINE_STATE, 3, 2, 0⟩ [] ⟨rfl, rfl, rfl⟩

/-- C10: at construction the line coding is 8000 bit/s, 8 data bits,
one stop bit, no parity — equal to `LineCoding::default()` — so a
GET_LINE_CODING before any SET_LINE_CODING returns the 7-byte encoding
of 8000 baud (`[0x40, 0x1F, 0, 0, 0, 0, 8]`), not the 115200 baud the
physical UART runs at. -/
theorem c10_initial_line_coding (ci di : Nat) :
    (WebUsbClass.new ci di).line_coding = LineCoding.default ∧
    (WebUsbClass.new ci di).control_in (getLineCodingReq ci) =
      .accepted [0x40, 0x1F, 0, 0, 0, 0, 8] ∧
    LineCoding.default.data_rate = 8000 ∧
    UART_BAUD = 115200 ∧
    LineCoding.default.data_rate ≠ UART_BAUD := by
  refine ⟨rfl, ?_, rfl, rfl, by decide⟩
  unfold WebUsbClass.control_in
  rw [if_neg (fun h => h.1 ⟨rfl, rfl, rfl⟩), if_pos ⟨rfl, rfl⟩]
  norm_num [WebUsbClass.new, u32le, StopBits.toNat, ParityType.toNat]

end TildaMkv
